import Mathlib

/-!
Shallow embedding of the analytics dashboard `app-tempo-atendimento.py`.

The program's meaningful core is: a value formatter (`format_brl`), a time
normalizer (`convert_time_to_minutes`), two workbook loaders
(`load_data_from_excel`, `load_atendimentos_data`), and a filter/aggregation
pipeline over the loaded tables.  Dataframes are modelled as Lean lists of
record structures; pandas column operations become list maps/filters/folds
with the pandas semantics (sum of an empty series is 0, mean/max/min of an
empty series is NaN, modelled as `Option.none`); Python exceptions become
`Option`/`Except` results, where `none`/`error` marks a raised exception.
-/

namespace Dashboard

/-- Maps a fallible function over a list, failing as a whole at the first
failure.  This is the semantics of applying a raising Python function over a
pandas column (`Series.apply`, `astype`): one bad cell aborts the whole
operation. -/
def mapOpt {α β : Type} (f : α → Option β) : List α → Option (List β)
  | [] => some []
  | x :: xs =>
    match f x, mapOpt f xs with
    | some y, some ys => some (y :: ys)
    | _, _ => none

/-- Splits a character list on a separator character, keeping empty pieces,
as Python's `str.split(sep)` does for a one-character separator. -/
def splitOnCh (sep : Char) : List Char → List (List Char)
  | [] => [[]]
  | c :: cs =>
    let r := splitOnCh sep cs
    if c = sep then [] :: r
    else
      match r with
      | [] => [[c]]
      | h :: t => (c :: h) :: t

/-- Removes leading and trailing whitespace, as Python's `str.strip()`. -/
def pyStrip (l : List Char) : List Char :=
  ((l.dropWhile Char.isWhitespace).reverse.dropWhile Char.isWhitespace).reverse

/-- Numeric value of a decimal digit character. -/
def digitVal (c : Char) : Nat := c.toNat - 48

/-- The natural number denoted by a most-significant-first digit list. -/
def natOfDigits (l : List Char) : Nat := l.foldl (fun a c => a * 10 + digitVal c) 0

/-- Models Python `int(s)` on a string: optional surrounding whitespace,
optional sign, one or more decimal digits; `none` models the `ValueError`
raised on any other input. -/
def pyInt (s : String) : Option Int :=
  match pyStrip s.data with
  | '-' :: rest =>
    if rest ≠ [] ∧ rest.all Char.isDigit then some (-(natOfDigits rest : Int)) else none
  | '+' :: rest =>
    if rest ≠ [] ∧ rest.all Char.isDigit then some ((natOfDigits rest : Int)) else none
  | l =>
    if l ≠ [] ∧ l.all Char.isDigit then some ((natOfDigits l : Int)) else none

/-- Python's `s.split(sep)` for a one-character separator, at `String` type. -/
def pySplit (sep : Char) (s : String) : List String :=
  (splitOnCh sep s.data).map (fun l => String.mk l)

/-- The values the `TEMPO_MEDIO_ESPERA` cell can hold: a string, a
time-of-day object (anything carrying a `minute` attribute, as
`datetime.time` does), or some other object with no `minute` attribute. -/
inductive PyVal : Type
  | str (s : String)
  | time (hour minute : Nat)
  | nonTime
deriving DecidableEq

/-- Outcome of `convert_time_to_minutes`: either a returned integer, or an
uncaught `AttributeError` escaping the function (the `except` clause catches
only `ValueError`). -/
inductive TimeResult : Type
  | ok (n : Int)
  | attrError
deriving DecidableEq

/-- The expression `time_str.minute`: returns the attribute when the value
has one, raises `AttributeError` otherwise (strings have no `minute`). -/
def readMinuteAttr : PyVal → TimeResult
  | PyVal.time _ m => TimeResult.ok (m : Int)
  | _ => TimeResult.attrError

/-- `convert_time_to_minutes` from the source: split a string on `:`; with
exactly two parts, parse both with `int` and return `hours * 60 + minutes`,
a parse failure (`ValueError`) being caught and turned into 0; any other
input reaches `time_str.minute`. -/
def convert_time_to_minutes : PyVal → TimeResult
  | PyVal.str s =>
    let parts := pySplit ':' s
    if parts.length = 2 then
      match pyInt (parts.getD 0 ""), pyInt (parts.getD 1 "") with
      | some hours, some minutes => TimeResult.ok (hours * 60 + minutes)
      | some _, none => TimeResult.ok 0
      | none, _ => TimeResult.ok 0
    else readMinuteAttr (PyVal.str s)
  | v => readMinuteAttr v

/-- The values a spreadsheet cell (or a Python argument) can hold in this
model: an integer, an exact decimal number `m / 10 ^ d` standing for a float
literal, or a string.  (Binary floating point is modelled by exact decimals;
none of the program's contracts depend on binary rounding artifacts.) -/
inductive Cell : Type
  | int (n : Int)
  | dec (m : Int) (d : Nat)
  | str (s : String)
deriving DecidableEq

/-- Rounds `n / 10 ^ k` to the nearest natural, ties to even — the rounding
Python's fixed-point float formatting applies to the decimal magnitude. -/
def roundHalfEven (n : Nat) (k : Nat) : Nat :=
  let d := 10 ^ k
  let q := n / d
  let r := n % d
  if 2 * r < d then q
  else if d < 2 * r then q + 1
  else if q % 2 = 0 then q else q + 1

/-- One step of thousands grouping: consumes the next
least-significant-first digit, inserting a `,` after every third digit of
the output built so far. -/
def groupStep (acc : Nat × List Char) (c : Char) : Nat × List Char :=
  if acc.1 = 3 then (1, c :: ',' :: acc.2) else (acc.1 + 1, c :: acc.2)

/-- Renders a natural number with `,` as the thousands separator, as
Python's `,` format option does. -/
def groupDigits (n : Nat) : List Char :=
  ((Nat.toDigits 10 n).reverse.foldl groupStep (0, [])).2

/-- Renders `(neg, mag)` — the value `± mag / 10 ^ p` — in Python's
fixed-point comma format `f"{x:,.pf}"`: grouped integer part, then, when
`p > 0`, a `.` and exactly `p` fractional digits. -/
def fixedFormat (neg : Bool) (mag : Nat) (p : Nat) : List Char :=
  let ip := mag / 10 ^ p
  let fp := mag % 10 ^ p
  let fpDigits := Nat.toDigits 10 fp
  let fracPart :=
    if p = 0 then []
    else '.' :: (List.replicate (p - fpDigits.length) '0' ++ fpDigits)
  (if neg then ['-'] else []) ++ groupDigits ip ++ fracPart

/-- The f-string `f"{numero:,.pf}"`: formats a number, raises (`none`) on a
string (`ValueError: unknown format code`). -/
def pyFormatComma (numero : Cell) (p : Nat) : Option (List Char) :=
  match numero with
  | Cell.int n => some (fixedFormat (decide (n < 0)) (n.natAbs * 10 ^ p) p)
  | Cell.dec m d =>
    let mag := if d ≤ p then m.natAbs * 10 ^ (p - d) else roundHalfEven m.natAbs (d - p)
    some (fixedFormat (decide (m < 0)) mag p)
  | Cell.str _ => none

/-- Python `str(x)` for the modelled values. -/
def pyStr : Cell → String
  | Cell.int n =>
    String.mk ((if n < 0 then ['-'] else []) ++ Nat.toDigits 10 n.natAbs)
  | Cell.dec m d =>
    String.mk (fixedFormat (decide (m < 0)) m.natAbs d)
  | Cell.str s => s

/-- One single-character `str.replace`: with a one-character pattern it
rewrites exactly the occurrences of that character. -/
def replaceChar (a b : Char) (l : List Char) : List Char :=
  l.map (fun c => if c = a then b else c)

/-- The chain `.replace(",", "X").replace(".", ",").replace("X", ".")` that
swaps the two separators. -/
def swapSeps (l : List Char) : List Char :=
  replaceChar 'X' '.' (replaceChar '.' ',' (replaceChar ',' 'X' l))

/-- `format_brl` from the source: format with `,` thousands / `.` decimal,
then swap the separators into the pt-BR convention; the bare `except`
catches the formatting failure on non-numeric input and falls back to
`str(numero)`. -/
def format_brl (numero : Cell) (casas_decimais : Nat) : String :=
  if casas_decimais = 0 then
    match pyFormatComma numero 0 with
    | some s => String.mk (swapSeps s)
    | none => pyStr numero
  else
    match pyFormatComma numero casas_decimais with
    | some s => String.mk (swapSeps s)
    | none => pyStr numero

/-- Python `float(s)` restricted to plain decimal literals (optional
surrounding whitespace, optional sign, digits with an optional decimal
point); the result is the exact pair `(mantissa, scale)`.  Exponent and
special forms are outside the inputs this program.  `none` models
`ValueError`. -/
def pyFloatParse (s : String) : Option (Int × Nat) :=
  let core := fun (l : List Char) (sign : Int) =>
    match splitOnCh '.' l with
    | [ip] =>
      if ip ≠ [] ∧ ip.all Char.isDigit then some (sign * (natOfDigits ip : Int), 0)
      else none
    | [ip, fp] =>
      if (ip ≠ [] ∨ fp ≠ []) ∧ ip.all Char.isDigit ∧ fp.all Char.isDigit then
        some (sign * (natOfDigits (ip ++ fp) : Int), fp.length)
      else none
    | _ => none
  match pyStrip s.data with
  | '-' :: rest => core rest (-1)
  | '+' :: rest => core rest 1
  | l => core l 1

/-- One cell under `astype(int)`: integers pass through, floats truncate
toward zero, strings must be integer literals; `none` models the raised
`ValueError`. -/
def cellToInt : Cell → Option Int
  | Cell.int n => some n
  | Cell.dec m d => some (Int.tdiv m ((10 : Int) ^ d))
  | Cell.str s => pyInt s

/-- One cell under `pd.to_numeric(_, errors="coerce")`: numbers pass
through as exact decimals, numeric strings parse, anything else becomes NaN
(`none`). -/
def cellToNumeric : Cell → Option (Int × Nat)
  | Cell.int n => some (n, 0)
  | Cell.dec m d => some (m, d)
  | Cell.str s => pyFloatParse s

/-- The `QTDE` pipeline
`pd.to_numeric(_, errors="coerce").fillna(0).astype(int)` on one
possibly-missing cell: unparseable or missing values become 0, numbers
truncate toward zero. -/
def qtdeCoerce : Option Cell → Int
  | none => 0
  | some c =>
    match cellToNumeric c with
    | none => 0
    | some (m, d) => Int.tdiv m ((10 : Int) ^ d)

/-- A raw row of one sheet of the volume workbook `Atendimentos.xlsx`
(columns `SETOR`, `TIPO`, `ANO`, `MES`, `QTDE`); `none` is a missing (NaN)
cell. -/
structure RawVolRow : Type where
  setor : Option String
  tipo : Option String
  ano : Option Cell
  mes : Option Cell
  qtde : Option Cell
deriving DecidableEq

/-- A loaded volume row after cleaning: `TIPO`, `ANO`, `MES` are present
and integral, `QTDE` coerced; `SETOR` is untouched and may still be
missing. -/
structure VolRow : Type where
  setor : Option String
  tipo : String
  ano : Int
  mes : Int
  qtde : Int
deriving DecidableEq

/-- The selection `df.dropna(subset=["MES", "ANO", "TIPO"])` keeps a row
iff none of those three cells is missing. -/
def keepRow (r : RawVolRow) : Bool :=
  r.mes.isSome && r.ano.isSome && r.tipo.isSome

/-- The per-row effect of `astype(int)` on `MES` and `ANO` plus the `QTDE`
coercion; `none` models the `ValueError` that `astype(int)` raises on a
non-integral surviving cell.  (Rows reaching this point have passed
`keepRow`, so the missing-cell arm is unreachable.) -/
def coerceRow (r : RawVolRow) : Option VolRow :=
  match r.mes, r.ano, r.tipo with
  | some mc, some ac, some t =>
    match cellToInt mc, cellToInt ac with
    | some m, some a => some ⟨r.setor, t, a, m, qtdeCoerce r.qtde⟩
    | _, _ => none
  | _, _, _ => none

/-- Per-sheet processing of the volume loader: drop rows with missing
`MES`/`ANO`/`TIPO`, then coerce the columns; `none` models a raised
exception while processing the sheet. -/
def processSheet (rows : List RawVolRow) : Option (List VolRow) :=
  mapOpt coerceRow (rows.filter keepRow)

/-- A volume workbook as the loader sees it: either opening it raises
(`pd.ExcelFile` failure), or it yields a list of sheets in order. -/
inductive AtendWorkbook : Type
  | openError (msg : String)
  | sheets (l : List (List RawVolRow))
deriving DecidableEq

/-- `load_atendimentos_data` from the source: process every sheet and
concatenate; any raised exception is caught by the `except` clause, which
reports via `st.error` (the `Option String` side channel) and returns an
empty table. -/
def load_atendimentos_data : AtendWorkbook → List VolRow × Option String
  | AtendWorkbook.openError msg =>
    ([], some ("Erro ao carregar dados de atendimentos: " ++ msg))
  | AtendWorkbook.sheets l =>
    match mapOpt processSheet l with
    | some dfs => (dfs.flatten, none)
    | none => ([], some "Erro ao carregar dados de atendimentos: conversao de coluna falhou")

/-- A raw row of one sheet of the wait-time workbook
`Tempo_Atendimentos.xlsx` (columns `CODIGO`, `SETOR`, `ANO`, `MES`,
`QUANTIDADE`, `TEMPO_MEDIO_ESPERA`). -/
structure RawWTRow : Type where
  codigo : Int
  setor : String
  ano : Int
  mes : Int
  quantidade : Int
  tempo : PyVal
deriving DecidableEq

/-- A loaded wait-time row: the raw columns plus the derived
`TEMPO_MINUTOS` column. -/
structure WTRow : Type where
  codigo : Int
  setor : String
  ano : Int
  mes : Int
  quantidade : Int
  tempo : PyVal
  tempoMinutos : Int
deriving DecidableEq

/-- Attaches the derived `TEMPO_MINUTOS` value to a raw row. -/
def augmentRow (r : RawWTRow) (n : Int) : WTRow :=
  ⟨r.codigo, r.setor, r.ano, r.mes, r.quantidade, r.tempo, n⟩

/-- A returned time-normalizer value, `none` when the call raised. -/
def timeResultToOption : TimeResult → Option Int
  | TimeResult.ok n => some n
  | TimeResult.attrError => none

/-- The returned value of a successful normalizer call (junk 0 on the
raising case, used only where raising is excluded by hypothesis). -/
def timeResultVal : TimeResult → Int
  | TimeResult.ok n => n
  | TimeResult.attrError => 0

/-- A wait-time workbook as the loader sees it: either the path does not
exist (`pd.ExcelFile` raises `FileNotFoundError`), or it yields sheets in
order. -/
inductive WTWorkbook : Type
  | notFound
  | sheets (l : List (List RawWTRow))
deriving DecidableEq

/-- The exceptions `load_data_from_excel` can raise: the missing-file error
(caught by the caller's handler) and the normalizer's `AttributeError`
(caught nowhere). -/
inductive WTError : Type
  | fileNotFound
  | attributeError
deriving DecidableEq

/-- `load_data_from_excel` from the source: read all sheets, concatenate
with `ignore_index` (sheet order, intra-sheet order preserved), then apply
`convert_time_to_minutes` to the `TEMPO_MEDIO_ESPERA` column to build
`TEMPO_MINUTOS`.  The function installs no handler, so any exception
propagates as an `Except.error`. -/
def load_data_from_excel : WTWorkbook → Except WTError (List WTRow)
  | WTWorkbook.notFound => Except.error WTError.fileNotFound
  | WTWorkbook.sheets l =>
    match
      mapOpt
        (fun r => (timeResultToOption (convert_time_to_minutes r.tempo)).map (augmentRow r))
        l.flatten
    with
    | some rows => Except.ok rows
    | none => Except.error WTError.attributeError

/-- The tab-1 sidebar filters: `none` is the sentinel `"Todos"` (no
filter). -/
structure TempoFilters : Type where
  setor : Option String
  ano : Option Int
  mes : Option Int
deriving DecidableEq

/-- The tab-1 filter application: start from `df.copy()` and narrow by
each selected dimension in order (`SETOR`, `ANO`, `MES`). -/
def applyTempoFilters (f : TempoFilters) (df : List WTRow) : List WTRow :=
  let d1 :=
    match f.setor with
    | none => df
    | some v => df.filter (fun r => decide (r.setor = v))
  let d2 :=
    match f.ano with
    | none => d1
    | some v => d1.filter (fun r => decide (r.ano = v))
  match f.mes with
  | none => d2
  | some v => d2.filter (fun r => decide (r.mes = v))

/-- The tab-2 sidebar filters: `none` is the sentinel `"Todos"`. -/
structure AtendFilters : Type where
  setor : Option String
  tipo : Option String
  ano : Option Int
  mes : Option Int
deriving DecidableEq

/-- The tab-2 filter application: narrow by `SETOR`, `TIPO`, `ANO`, `MES`
in order.  A pandas `==` comparison of a missing `SETOR` with a selected
value is false, hence the `Option`-level equality. -/
def applyAtendFilters (f : AtendFilters) (df : List VolRow) : List VolRow :=
  let d1 :=
    match f.setor with
    | none => df
    | some v => df.filter (fun r => decide (r.setor = some v))
  let d2 :=
    match f.tipo with
    | none => d1
    | some v => d1.filter (fun r => decide (r.tipo = v))
  let d3 :=
    match f.ano with
    | none => d2
    | some v => d2.filter (fun r => decide (r.ano = v))
  match f.mes with
  | none => d3
  | some v => d3.filter (fun r => decide (r.mes = v))

/-- pandas `Series.sum()`: 0 on an empty series. -/
def seriesSum (xs : List Int) : Int := xs.foldl (fun a b => a + b) 0

/-- pandas `Series.mean()`: NaN (`none`) on an empty series, the rational
average otherwise. -/
def seriesMean (xs : List Int) : Option ℚ :=
  match xs with
  | [] => none
  | _ => some ((seriesSum xs : ℚ) / (xs.length : ℚ))

/-- pandas `Series.max()`: NaN (`none`) on an empty series. -/
def seriesMax : List Int → Option Int
  | [] => none
  | x :: xs => some (xs.foldl max x)

/-- pandas `Series.min()`: NaN (`none`) on an empty series. -/
def seriesMin : List Int → Option Int
  | [] => none
  | x :: xs => some (xs.foldl min x)

/-- Stable ascending insertion into a sorted list, for the sort pandas
applies to group keys and to `sort_values`. -/
def insertLe {α : Type} (le : α → α → Bool) (x : α) : List α → List α
  | [] => [x]
  | y :: ys => if le x y then x :: y :: ys else y :: insertLe le x ys

/-- Stable ascending insertion sort, modelling pandas ascending sorts. -/
def sortByLe {α : Type} (le : α → α → Bool) : List α → List α
  | [] => []
  | x :: xs => insertLe le x (sortByLe le xs)

/-- `df.groupby("SETOR")`: one group per distinct sector, keys sorted
ascending (pandas sorts group keys by default); an empty table yields zero
groups. -/
def groupbySetor (df : List WTRow) : List (String × List WTRow) :=
  (sortByLe (fun a b => !decide (b < a)) ((df.map (fun r => r.setor)).eraseDups)).map
    (fun k => (k, df.filter (fun r => decide (r.setor = k))))

/-- The tab-1 chart table
`df_filtrado.groupby("SETOR").agg(QUANTIDADE=sum).reset_index().sort_values("QUANTIDADE")`:
per-sector quantity sums, sorted ascending by the sum. -/
def df_setor (df : List WTRow) : List (String × Int) :=
  sortByLe (fun a b => decide (a.2 ≤ b.2))
    ((groupbySetor df).map (fun g => (g.1, seriesSum (g.2.map (fun r => r.quantidade)))))

/-- The failure condition of the volume loader: the workbook fails to
open, or processing some sheet raises. -/
def loadFails : AtendWorkbook → Prop
  | AtendWorkbook.openError _ => True
  | AtendWorkbook.sheets l => ∃ s ∈ l, processSheet s = none

/-- A sample loaded wait-time row used in concrete instantiations. -/
def sampleWT : WTRow := ⟨1, "A", 2024, 1, 5, PyVal.str "1:15", 75⟩

/-- A tab-1 filter selecting a sector absent from the sample data. -/
def filterB : TempoFilters := ⟨some "B", none, none⟩

/-- A raw volume row with every key present. -/
def rowFull : RawVolRow :=
  ⟨some "A", some "T", some (Cell.int 2024), some (Cell.int 1), some (Cell.int 5)⟩

/-- A raw volume row with sector, year and type present but month missing. -/
def rowMissingMonth : RawVolRow :=
  ⟨some "A", some "T", some (Cell.int 2024), none, some (Cell.int 5)⟩

/-- A raw volume row whose month cell is present but not integral. -/
def badRow : RawVolRow :=
  ⟨some "A", some "T", some (Cell.int 2024), some (Cell.str "x"), some (Cell.int 5)⟩

/-- A raw volume row with a negative quantity. -/
def negQtdeRow : RawVolRow :=
  ⟨some "A", some "T", some (Cell.int 2024), some (Cell.int 1), some (Cell.int (-5))⟩

/-- The loaded row `rowFull` produces. -/
def sampleVol : VolRow := ⟨some "A", "T", 2024, 1, 5⟩

/-- A raw wait-time row whose time cell the normalizer handles. -/
def goodWTRow : RawWTRow := ⟨1, "A", 2024, 1, 5, PyVal.str "1:15"⟩

/-- A raw wait-time row whose time cell makes the normalizer raise. -/
def badWTRow : RawWTRow := ⟨1, "A", 2024, 1, 5, PyVal.str "abc"⟩

/-! ### Helper lemmas -/

theorem splitOnCh_ne_nil (sep : Char) (l : List Char) : splitOnCh sep l ≠ [] := by
  cases l with
  | nil => simp [splitOnCh]
  | cons c cs =>
    simp only [splitOnCh]
    by_cases h : c = sep
    · simp [h]
    · cases hr : splitOnCh sep cs <;> simp [h, hr]

theorem splitOnCh_length (sep : Char) (l : List Char) :
    (splitOnCh sep l).length = l.count sep + 1 := by
  induction l with
  | nil => simp [splitOnCh]
  | cons c cs ih =>
    have hne := splitOnCh_ne_nil sep cs
    by_cases h : c = sep
    · simp [splitOnCh, h, List.count_cons, ih]
    · cases hr : splitOnCh sep cs with
      | nil => exact absurd hr hne
      | cons x xs =>
        rw [hr] at ih
        simp only [List.length_cons] at ih
        simp [splitOnCh, h, hr, List.count_cons]
        omega

theorem pySplit_length (sep : Char) (s : String) :
    (pySplit sep s).length = s.data.count sep + 1 := by
  simp [pySplit, splitOnCh_length]

theorem mapOpt_eq_none {α β : Type} (f : α → Option β) (l : List α) (x : α)
    (hx : x ∈ l) (hfx : f x = none) : mapOpt f l = none := by
  induction l with
  | nil => cases hx
  | cons y ys ih =>
    rcases List.mem_cons.mp hx with h | h
    · subst h
      simp [mapOpt, hfx]
    · have h2 := ih h
      simp only [mapOpt, h2]
      cases hf : f y <;> simp

theorem mapOpt_eq_map {α β : Type} (f : α → Option β) (g : α → β) (l : List α)
    (h : ∀ x ∈ l, f x = some (g x)) : mapOpt f l = some (l.map g) := by
  induction l with
  | nil => simp [mapOpt]
  | cons y ys ih =>
    have hy := h y (List.mem_cons_self y ys)
    have hys := ih (fun x hx => h x (List.mem_cons_of_mem y hx))
    simp [mapOpt, hy, hys]

theorem mapOpt_length {α β : Type} (f : α → Option β) (l : List α) (ys : List β)
    (h : mapOpt f l = some ys) : ys.length = l.length := by
  induction l generalizing ys with
  | nil =>
    simp only [mapOpt, Option.some.injEq] at h
    subst h
    rfl
  | cons x xs ih =>
    simp only [mapOpt] at h
    cases hf : f x with
    | none => rw [hf] at h; cases h
    | some y =>
      rw [hf] at h
      cases hm : mapOpt f xs with
      | none => rw [hm] at h; cases h
      | some zs =>
        rw [hm] at h
        simp only [Option.some.injEq] at h
        subst h
        simp [ih zs hm]

theorem flatten_length_uniform {α : Type} (R : Nat) (l : List (List α))
    (h : ∀ s ∈ l, s.length = R) : l.flatten.length = l.length * R := by
  induction l with
  | nil => simp
  | cons s ss ih =>
    have hs := h s (List.mem_cons_self s ss)
    have hss := ih (fun t ht => h t (List.mem_cons_of_mem s ht))
    simp [List.flatten, hs, hss, Nat.succ_mul, Nat.add_comm]

theorem int_tdiv_one (n : Int) : Int.tdiv n 1 = n := by
  cases n with
  | ofNat m =>
    simp [Int.tdiv]
  | negSucc m =>
    simp [Int.tdiv, Int.negSucc_eq, Nat.div_one]

theorem conv_two_parts_ok (s a b : String) (hs : pySplit ':' s = [a, b])
    (h m : Int) (ha : pyInt a = some h) (hb : pyInt b = some m) :
    convert_time_to_minutes (PyVal.str s) = TimeResult.ok (h * 60 + m) := by
  simp [convert_time_to_minutes, hs, ha, hb]

theorem conv_two_parts_fail (s a b : String) (hs : pySplit ':' s = [a, b])
    (hab : pyInt a = none ∨ pyInt b = none) :
    convert_time_to_minutes (PyVal.str s) = TimeResult.ok 0 := by
  rcases hab with h1 | h1
  · simp [convert_time_to_minutes, hs, h1]
  · cases h2 : pyInt a <;> simp [convert_time_to_minutes, hs, h1, h2]

theorem conv_not_two_parts (s : String) (h : (pySplit ':' s).length ≠ 2) :
    convert_time_to_minutes (PyVal.str s) = readMinuteAttr (PyVal.str s) := by
  simp only [convert_time_to_minutes]
  rw [if_neg h]

/-! ### Claim theorems -/

/-- C1: for every table and every set of equality filters whose result is
empty, the aggregation step yields: grouping by sector produces zero groups,
the sum reduction over quantity is 0, and the mean/max/min reductions over
the empty set are the non-numeric placeholder (`none`, modelling NaN), never
0. -/
theorem c1_empty_aggregation (df : List WTRow) (f : TempoFilters)
    (h : applyTempoFilters f df = []) :
    groupbySetor (applyTempoFilters f df) = [] ∧
    df_setor (applyTempoFilters f df) = [] ∧
    seriesSum ((applyTempoFilters f df).map (fun r => r.quantidade)) = 0 ∧
    seriesMean ((applyTempoFilters f df).map (fun r => r.tempoMinutos)) = none ∧
    seriesMax ((applyTempoFilters f df).map (fun r => r.quantidade)) = none ∧
    seriesMin ((applyTempoFilters f df).map (fun r => r.tempoMinutos)) = none ∧
    seriesMean ((applyTempoFilters f df).map (fun r => r.tempoMinutos)) ≠ some 0 ∧
    seriesMax ((applyTempoFilters f df).map (fun r => r.quantidade)) ≠ some 0 ∧
    seriesMin ((applyTempoFilters f df).map (fun r => r.tempoMinutos)) ≠ some 0 := by
  rw [h]
  refine ⟨rfl, rfl, rfl, rfl, rfl, rfl, ?_, ?_, ?_⟩ <;>
    simp [seriesMean, seriesMax, seriesMin]

/-- Witness for C1: a one-row table filtered by a sector it does not
contain. -/
theorem c1_empty_aggregation_witness :
    applyTempoFilters filterB [sampleWT] = [] ∧
    (groupbySetor (applyTempoFilters filterB [sampleWT]) = [] ∧
     df_setor (applyTempoFilters filterB [sampleWT]) = [] ∧
     seriesSum ((applyTempoFilters filterB [sampleWT]).map (fun r => r.quantidade)) = 0 ∧
     seriesMean ((applyTempoFilters filterB [sampleWT]).map (fun r => r.tempoMinutos)) = none ∧
     seriesMax ((applyTempoFilters filterB [sampleWT]).map (fun r => r.quantidade)) = none ∧
     seriesMin ((applyTempoFilters filterB [sampleWT]).map (fun r => r.tempoMinutos)) = none ∧
     seriesMean ((applyTempoFilters filterB [sampleWT]).map (fun r => r.tempoMinutos)) ≠ some 0 ∧
     seriesMax ((applyTempoFilters filterB [sampleWT]).map (fun r => r.quantidade)) ≠ some 0 ∧
     seriesMin ((applyTempoFilters filterB [sampleWT]).map (fun r => r.tempoMinutos)) ≠ some 0) :=
  ⟨by decide, c1_empty_aggregation [sampleWT] filterB (by decide)⟩

/-- C2: on a string with exactly one `:` (equivalently: splitting yields
exactly two parts) whose parts parse as integers, the normalizer returns
`hours * 60 + minutes`; on a string without exactly one `:`, or a non-string,
the result is that of reading the `.minute` attribute (the value taken as
minutes when the attribute exists, discarding the hour; an `AttributeError`
otherwise); an integer-parsing failure yields 0. -/
theorem c2_time_normalizer :
    (∀ s : String, (pySplit ':' s).length = s.data.count ':' + 1) ∧
    (∀ s a b : String, pySplit ':' s = [a, b] →
      ∀ h m : Int, pyInt a = some h → pyInt b = some m →
        convert_time_to_minutes (PyVal.str s) = TimeResult.ok (h * 60 + m)) ∧
    (∀ s : String, (pySplit ':' s).length ≠ 2 →
      convert_time_to_minutes (PyVal.str s) = readMinuteAttr (PyVal.str s)) ∧
    (∀ hh mm : Nat, convert_time_to_minutes (PyVal.time hh mm) = TimeResult.ok (mm : Int)) ∧
    (convert_time_to_minutes PyVal.nonTime = readMinuteAttr PyVal.nonTime) ∧
    (∀ s a b : String, pySplit ':' s = [a, b] → (pyInt a = none ∨ pyInt b = none) →
      convert_time_to_minutes (PyVal.str s) = TimeResult.ok 0) :=
  ⟨pySplit_length ':', conv_two_parts_ok, conv_not_two_parts,
   fun _ _ => rfl, rfl, conv_two_parts_fail⟩

/-- Witness for C2: the spec's concrete cases `"0:06"`, `"1:15"`,
`"00:00"`, a time-of-day value, and a parse failure. -/
theorem c2_time_normalizer_witness :
    pySplit ':' "1:15" = ["1", "15"] ∧
    convert_time_to_minutes (PyVal.str "1:15") = TimeResult.ok (1 * 60 + 15) ∧
    convert_time_to_minutes (PyVal.str "0:06") = TimeResult.ok (0 * 60 + 6) ∧
    convert_time_to_minutes (PyVal.str "00:00") = TimeResult.ok (0 * 60 + 0) ∧
    (pySplit ':' "abc").length ≠ 2 ∧
    convert_time_to_minutes (PyVal.str "abc") = readMinuteAttr (PyVal.str "abc") ∧
    convert_time_to_minutes (PyVal.time 2 30) = TimeResult.ok 30 ∧
    convert_time_to_minutes (PyVal.str "a:b") = TimeResult.ok 0 :=
  ⟨by decide,
   c2_time_normalizer.2.1 "1:15" "1" "15" (by decide) 1 15 (by decide) (by decide),
   c2_time_normalizer.2.1 "0:06" "0" "06" (by decide) 0 6 (by decide) (by decide),
   c2_time_normalizer.2.1 "00:00" "00" "00" (by decide) 0 0 (by decide) (by decide),
   by decide,
   c2_time_normalizer.2.2.1 "abc" (by decide),
   c2_time_normalizer.2.2.2.1 2 30,
   c2_time_normalizer.2.2.2.2.2 "a:b" "a" "b" (by decide) (Or.inl (by decide))⟩

/-- Counterexample to C3: on the wait-time text `"abc"` parsing fails, yet
the normalizer does not recover with 0 — the `except` clause catches only
`ValueError`, so the `AttributeError` raised by `"abc".minute` surfaces to
the caller. -/
theorem c3_counterexample :
    convert_time_to_minutes (PyVal.str "abc") = TimeResult.attrError ∧
    convert_time_to_minutes (PyVal.str "abc") ≠ TimeResult.ok 0 := by decide

/-- C3 as amended: an integer-parsing failure on a string with exactly one
`:` is recovered locally with the default value 0; but on a string without
exactly one `:` the normalizer instead raises an uncaught `AttributeError`
that surfaces to its caller. -/
theorem c3_amended :
    (∀ s a b : String, pySplit ':' s = [a, b] → (pyInt a = none ∨ pyInt b = none) →
      convert_time_to_minutes (PyVal.str s) = TimeResult.ok 0) ∧
    (∀ s : String, (pySplit ':' s).length ≠ 2 →
      convert_time_to_minutes (PyVal.str s) = TimeResult.attrError) :=
  ⟨conv_two_parts_fail, fun s h => conv_not_two_parts s h⟩

/-- Witness for C3 (amended): the parse failure `"a:b"` yields 0, while the
colon-less `"4 5"` raises. -/
theorem c3_amended_witness :
    convert_time_to_minutes (PyVal.str "a:b") = TimeResult.ok 0 ∧
    convert_time_to_minutes (PyVal.str "4 5") = TimeResult.attrError :=
  ⟨c3_amended.1 "a:b" "a" "b" (by decide) (Or.inl (by decide)),
   c3_amended.2 "4 5" (by decide)⟩

/-- Counterexample to C4: a row with sector, year and type all present but
month missing does not survive into the concatenated result — the drop rule
tests month/year/type (`MES`, `ANO`, `TIPO`), not sector. -/
theorem c4_counterexample :
    rowMissingMonth.setor.isSome = true ∧
    rowMissingMonth.ano.isSome = true ∧
    rowMissingMonth.tipo.isSome = true ∧
    load_atendimentos_data (AtendWorkbook.sheets [[rowMissingMonth]]) = ([], none) := by
  decide

/-- C4 as amended: the loader drops exactly those rows in which any of the
month, year, or type keys is absent; every row with all three present
survives (one output row per kept row), and a fully successful load returns
the concatenation of the sheets' surviving rows. -/
theorem c4_amended :
    (∀ r : RawVolRow,
      keepRow r = true ↔ (r.mes.isSome = true ∧ r.ano.isSome = true ∧ r.tipo.isSome = true)) ∧
    (∀ (s : List RawVolRow) (rows : List VolRow), processSheet s = some rows →
      rows.length = (s.filter keepRow).length) ∧
    (∀ (l : List (List RawVolRow)) (dfs : List (List VolRow)),
      mapOpt processSheet l = some dfs →
      load_atendimentos_data (AtendWorkbook.sheets l) = (dfs.flatten, none)) := by
  refine ⟨?_, ?_, ?_⟩
  · intro r
    simp [keepRow, Bool.and_eq_true, and_assoc]
  · intro s rows h
    exact mapOpt_length coerceRow (s.filter keepRow) rows h
  · intro l dfs h
    simp [load_atendimentos_data, h]

/-- Witness for C4 (amended): a sheet holding one complete and one
month-less row keeps exactly the complete row, and the load returns it. -/
theorem c4_amended_witness :
    processSheet [rowFull, rowMissingMonth] = some [sampleVol] ∧
    ([sampleVol] : List VolRow).length = ([rowFull, rowMissingMonth].filter keepRow).length ∧
    mapOpt processSheet [[rowFull, rowMissingMonth]] = some [[sampleVol]] ∧
    load_atendimentos_data (AtendWorkbook.sheets [[rowFull, rowMissingMonth]]) =
      ([[sampleVol]].flatten, none) :=
  ⟨by decide, c4_amended.2.1 [rowFull, rowMissingMonth] [sampleVol] (by decide),
   by decide, c4_amended.2.2 [[rowFull, rowMissingMonth]] [[sampleVol]] (by decide)⟩

/-- C5: whenever opening the volume workbook or processing any of its
sheets raises, the loader catches the failure, reports a non-null error on
the side channel, and returns an empty table; the result type itself
witnesses that no exception propagates past the boundary. -/
theorem c5_load_failure (wb : AtendWorkbook) (h : loadFails wb) :
    (load_atendimentos_data wb).1 = [] ∧ (load_atendimentos_data wb).2 ≠ none := by
  cases wb with
  | openError msg => exact ⟨rfl, by simp [load_atendimentos_data]⟩
  | sheets l =>
    obtain ⟨s, hs, hnone⟩ := h
    have hmap : mapOpt processSheet l = none := mapOpt_eq_none processSheet l s hs hnone
    constructor
    · simp [load_atendimentos_data, hmap]
    · simp [load_atendimentos_data, hmap]

/-- Witness for C5: one workbook that fails to open, and one whose single
sheet raises during column coercion. -/
theorem c5_load_failure_witness :
    (load_atendimentos_data (AtendWorkbook.openError "arquivo corrompido")).1 = [] ∧
    (load_atendimentos_data (AtendWorkbook.openError "arquivo corrompido")).2 ≠ none ∧
    (load_atendimentos_data (AtendWorkbook.sheets [[badRow]])).1 = [] ∧
    (load_atendimentos_data (AtendWorkbook.sheets [[badRow]])).2 ≠ none :=
  ⟨(c5_load_failure (AtendWorkbook.openError "arquivo corrompido") trivial).1,
   (c5_load_failure (AtendWorkbook.openError "arquivo corrompido") trivial).2,
   (c5_load_failure (AtendWorkbook.sheets [[badRow]]) ⟨[badRow], by decide, by decide⟩).1,
   (c5_load_failure (AtendWorkbook.sheets [[badRow]]) ⟨[badRow], by decide, by decide⟩).2⟩

/-- C6: the value formatter renders numbers with `.` as the thousands
separator and `,` as the decimal separator, and returns a non-numeric
input's default string form without raising.  (The Lean model is a pure
function, so freedom from side effects is inherent.) -/
theorem c6_format_brl :
    format_brl (Cell.int 1234567) 0 = "1.234.567" ∧
    format_brl (Cell.dec 12345 1) 1 = "1.234,5" ∧
    (∀ s : String, ∀ d : Nat, format_brl (Cell.str s) d = s) := by
  refine ⟨by decide, by decide, ?_⟩
  intro s d
  cases d <;> rfl

/-- C7: the all-wildcard filter (every dimension set to the sentinel
`"Todos"`, modelled `none`) is the identity on both loaded tables — same
rows, same columns, same order. -/
theorem c7_wildcard_identity :
    (∀ df : List WTRow, applyTempoFilters ⟨none, none, none⟩ df = df) ∧
    (∀ df : List VolRow, applyAtendFilters ⟨none, none, none, none⟩ df = df) :=
  ⟨fun _ => rfl, fun _ => rfl⟩

/-- Counterexample to C8: a wait-time workbook with one sheet of one row
whose time cell is the colon-less string `"abc"` does not produce a 1-row
table — the normalizer's `AttributeError` propagates out of the loader. -/
theorem c8_counterexample :
    load_data_from_excel (WTWorkbook.sheets [[badWTRow]]) =
      Except.error WTError.attributeError ∧
    ([[badWTRow]] : List (List RawWTRow)).length = 1 ∧
    ([badWTRow] : List RawWTRow).length = 1 := by
  refine ⟨rfl, rfl, rfl⟩

/-- C8 as amended: a missing path fails with the not-found error, which
propagates to the caller; and provided the time normalizer raises on none
of the wait-time text fields, the loader returns exactly the concatenation
of all sheets in sheet order with intra-sheet order preserved, each row
augmented with the normalizer's minutes value — N sheets of R rows each
giving N·R rows. -/
theorem c8_amended :
    (load_data_from_excel WTWorkbook.notFound = Except.error WTError.fileNotFound) ∧
    (∀ l : List (List RawWTRow),
      (∀ r ∈ l.flatten, convert_time_to_minutes r.tempo ≠ TimeResult.attrError) →
      load_data_from_excel (WTWorkbook.sheets l) =
        Except.ok
          (l.flatten.map
            (fun r => augmentRow r (timeResultVal (convert_time_to_minutes r.tempo))))) ∧
    (∀ (l : List (List RawWTRow)) (R : Nat), (∀ s ∈ l, s.length = R) →
      (l.flatten.map
          (fun r => augmentRow r (timeResultVal (convert_time_to_minutes r.tempo)))).length =
        l.length * R) := by
  refine ⟨rfl, ?_, ?_⟩
  · intro l h
    have hmap :
        mapOpt
          (fun r => (timeResultToOption (convert_time_to_minutes r.tempo)).map (augmentRow r))
          l.flatten =
        some
          (l.flatten.map
            (fun r => augmentRow r (timeResultVal (convert_time_to_minutes r.tempo)))) := by
      apply mapOpt_eq_map
      intro r hr
      cases hc : convert_time_to_minutes r.tempo with
      | ok n => simp [timeResultToOption, timeResultVal, hc]
      | attrError => exact absurd hc (h r hr)
    simp [load_data_from_excel, hmap]
  · intro l R h
    rw [List.length_map]
    exact flatten_length_uniform R l h

/-- Witness for C8 (amended): a workbook of one sheet with one clean row
loads to its one augmented row. -/
theorem c8_amended_witness :
    load_data_from_excel (WTWorkbook.sheets [[goodWTRow]]) =
      Except.ok
        (([[goodWTRow]] : List (List RawWTRow)).flatten.map
          (fun r => augmentRow r (timeResultVal (convert_time_to_minutes r.tempo)))) ∧
    (([[goodWTRow]] : List (List RawWTRow)).flatten.map
        (fun r => augmentRow r (timeResultVal (convert_time_to_minutes r.tempo)))).length =
      ([[goodWTRow]] : List (List RawWTRow)).length * 1 :=
  ⟨c8_amended.2.1 [[goodWTRow]] (by decide),
   c8_amended.2.2 [[goodWTRow]] 1 (by decide)⟩

/-- Counterexample to C9: a surviving row whose quantity cell holds `-5` is
coerced to `-5`, a negative integer — the pipeline
`to_numeric(coerce).fillna(0).astype(int)` never enforces non-negativity. -/
theorem c9_counterexample :
    load_atendimentos_data (AtendWorkbook.sheets [[negQtdeRow]]) =
      ([⟨some "A", "T", 2024, 1, -5⟩], none) ∧
    qtdeCoerce (some (Cell.int (-5))) = -5 ∧
    ((-5 : Int) < 0) := by decide

/-- C9 as amended: for every surviving row the quantity field is coerced to
an integer — values that parse keep their (truncated) numeric value, sign
included, and every missing or unparseable value becomes 0; non-negativity
is not enforced. -/
theorem c9_amended :
    (∀ c : Cell, cellToNumeric c = none → qtdeCoerce (some c) = 0) ∧
    (qtdeCoerce none = 0) ∧
    (∀ n : Int, qtdeCoerce (some (Cell.int n)) = n) ∧
    (∀ (m : Int) (d : Nat),
      qtdeCoerce (some (Cell.dec m d)) = Int.tdiv m ((10 : Int) ^ d)) := by
  refine ⟨?_, rfl, ?_, fun _ _ => rfl⟩
  · intro c h
    simp [qtdeCoerce, h]
  · intro n
    show Int.tdiv n ((10 : Int) ^ 0) = n
    rw [pow_zero]
    exact int_tdiv_one n

/-- Witness for C9 (amended): the non-numeric string `"abc"` becomes 0, and
the integer 7 is kept. -/
theorem c9_amended_witness :
    cellToNumeric (Cell.str "abc") = none ∧
    qtdeCoerce (some (Cell.str "abc")) = 0 ∧
    qtdeCoerce (some (Cell.int 7)) = 7 :=
  ⟨by decide, c9_amended.1 (Cell.str "abc") (by decide), c9_amended.2.2.1 7⟩

/-- C10: if any sheet contains a row that survives the drop rule but whose
month or year cell is not coercible to an integer, the coercion raises, the
whole load is aborted, and the loader returns an empty table plus an error
— discarding every row of every sheet, including sheets processed before
the failing one. -/
theorem c10_sheet_abort (good : List (List RawVolRow)) (bad : List RawVolRow)
    (r : RawVolRow) (hr : r ∈ bad.filter keepRow)
    (hfail :
      (∃ c, r.mes = some c ∧ cellToInt c = none) ∨
      (∃ c, r.ano = some c ∧ cellToInt c = none)) :
    load_atendimentos_data (AtendWorkbook.sheets (good ++ [bad])) =
      ([], some "Erro ao carregar dados de atendimentos: conversao de coluna falhou") := by
  have hk : keepRow r = true := (List.mem_filter.mp hr).2
  simp only [keepRow, Bool.and_eq_true, Option.isSome_iff_exists] at hk
  obtain ⟨⟨⟨mc, hmc⟩, ⟨ac, hac⟩⟩, ⟨t, ht⟩⟩ := hk
  have hrow : coerceRow r = none := by
    rcases hfail with ⟨c, hc, hnone⟩ | ⟨c, hc, hnone⟩
    · rw [hmc] at hc
      cases hc
      simp [coerceRow, hmc, hac, ht, hnone]
    · rw [hac] at hc
      cases hc
      cases h1 : cellToInt mc <;> simp [coerceRow, hmc, hac, ht, hnone, h1]
  have hsheet : processSheet bad = none :=
    mapOpt_eq_none coerceRow (bad.filter keepRow) r hr hrow
  have hall : mapOpt processSheet (good ++ [bad]) = none :=
    mapOpt_eq_none processSheet (good ++ [bad]) bad (by simp) hsheet
  simp [load_atendimentos_data, hall]

/-- Witness for C10: a good first sheet followed by a sheet with a
non-integral month cell — everything is discarded. -/
theorem c10_sheet_abort_witness :
    badRow ∈ [badRow].filter keepRow ∧
    load_atendimentos_data (AtendWorkbook.sheets ([[rowFull]] ++ [[badRow]])) =
      ([], some "Erro ao carregar dados de atendimentos: conversao de coluna falhou") :=
  ⟨by decide,
   c10_sheet_abort [[rowFull]] [badRow] badRow (by decide)
     (Or.inl ⟨Cell.str "x", rfl, rfl⟩)⟩

end Dashboard
